import Mathlib

/-!
Shallow embedding of the es-shopping repository core:
- the shopping-cart decider (`src/shoppingCart/domain/shoppingCart.ts`, provided as
  `src/unnamed/part_002`): `initialState`, the five command handlers, `mergeProductItems`,
  `removeProductItems`, `evolve`, `decide`;
- the cart-summary projection (`src/unnamed/part_004`): `calculateTotals`,
  `evolveShoppingCartSummary`;
- the customer-summary projection (`src/shoppingCart/projections/customerShoppingSummary.ts`):
  `evolveCustomerShoppingSummary`;
- the JSON-file event store decorator (`src/eventStore/jsonFileEventStore.ts`):
  the `appendToStream` override and the per-file cart fold inside `getAllCarts`.

Modelling conventions: JavaScript `Date` values are epoch timestamps (`Int`);
JS numbers used as money are rationals (`ℚ`); JS numbers used as quantities are `Int`
(the code never restricts them to naturals); a thrown `IllegalStateError` is the
`.error (.illegalState msg)` branch of `Except`.  JS `findIndex`-then-update code on
arrays is embedded as first-match structural recursion, which computes the same list.
-/

namespace ESShopping

/-- `ProductItem` from `types/index.ts`: productId, productName, quantity. -/
structure ProductItem where
  productId : String
  productName : String
  quantity : Int
deriving DecidableEq, Repr

/-- `PricedProductItem` from `types/index.ts`: a `ProductItem` plus `unitPrice`. -/
structure PricedProductItem where
  productId : String
  productName : String
  quantity : Int
  unitPrice : ℚ
deriving DecidableEq, Repr

/-- `ShoppingCartStatus` from `types/index.ts`. -/
inductive ShoppingCartStatus where
  | Opened
  | Confirmed
  | Cancelled
deriving DecidableEq, Repr

/-- `ShoppingCart` from `types/index.ts`; the optional `confirmedAt`/`cancelledAt`
fields become `Option Int`. -/
structure ShoppingCart where
  id : String
  customerId : String
  status : ShoppingCartStatus
  items : List PricedProductItem
  openedAt : Int
  confirmedAt : Option Int := none
  cancelledAt : Option Int := none
deriving DecidableEq, Repr

/-- `ShoppingCartEvent` from `events/index.ts`.  The extra `unknownEvent` constructor
stands for a runtime event object whose `type` tag is none of the five known tags:
`evolve` in the source handles such events through its `default` branch (events are
read back untyped from JSON files), so the embedded event type keeps that case. -/
inductive ShoppingCartEvent where
  | opened (shoppingCartId customerId : String) (openedAt : Int)
  | productItemAdded (shoppingCartId : String) (productItem : PricedProductItem) (addedAt : Int)
  | productItemRemoved (shoppingCartId : String) (productItem : ProductItem) (removedAt : Int)
  | confirmed (shoppingCartId : String) (confirmedAt : Int)
  | cancelled (shoppingCartId : String) (cancelledAt : Int)
  | unknownEvent (tag : String)
deriving DecidableEq, Repr

/-- `ShoppingCartCommand` from `commands/index.ts`. -/
inductive ShoppingCartCommand where
  | openCart (shoppingCartId customerId : String)
  | addProductItemCmd (shoppingCartId : String) (productItem : PricedProductItem)
  | removeProductItemCmd (shoppingCartId : String) (productItem : ProductItem)
  | confirmCart (shoppingCartId : String)
  | cancelCart (shoppingCartId : String)
deriving DecidableEq, Repr

/-- Rejections raised by the decider: `IllegalStateError` with its message. -/
inductive DomainError where
  | illegalState (msg : String)
deriving DecidableEq, Repr

/-- `initialState` from the decider module: note that it carries `status: 'Opened'`
and empty `id`; the "absent cart" is encoded solely by `id = ""`.  The
`new Date()` call is the parameter `now`. -/
def initialState (now : Int) : ShoppingCart :=
  { id := ""
    customerId := ""
    status := .Opened
    items := []
    openedAt := now }

/-- `openShoppingCart`: rejects when `state.id !== ''`, otherwise emits
`ShoppingCartOpened`.  `metadata?.now ?? new Date()` is the parameter `now`. -/
def openShoppingCart (shoppingCartId customerId : String) (state : ShoppingCart)
    (now : Int) : Except DomainError ShoppingCartEvent :=
  if state.id ≠ "" then
    .error (.illegalState "Shopping cart already exists")
  else
    .ok (.opened shoppingCartId customerId now)

/-- `addProductItem`: rejects when `state.status !== 'Opened'`, otherwise emits
`ProductItemAddedToShoppingCart` carrying the command's product item unchanged. -/
def addProductItem (shoppingCartId : String) (productItem : PricedProductItem)
    (state : ShoppingCart) (now : Int) : Except DomainError ShoppingCartEvent :=
  if state.status ≠ .Opened then
    .error (.illegalState "Cannot add product to a closed shopping cart")
  else
    .ok (.productItemAdded shoppingCartId productItem now)

/-- `removeProductItem`: rejects when not `Opened`; then looks up the first item with
the command's productId (`state.items.find`); rejects when absent, rejects when the
held quantity is below the requested quantity, otherwise emits
`ProductItemRemovedFromShoppingCart`. -/
def removeProductItem (shoppingCartId : String) (productItem : ProductItem)
    (state : ShoppingCart) (now : Int) : Except DomainError ShoppingCartEvent :=
  if state.status ≠ .Opened then
    .error (.illegalState "Cannot remove product from a closed shopping cart")
  else
    match state.items.find? (fun item => item.productId = productItem.productId) with
    | none => .error (.illegalState "Product item not found in shopping cart")
    | some existingItem =>
      if existingItem.quantity < productItem.quantity then
        .error (.illegalState "Cannot remove more items than available in cart")
      else
        .ok (.productItemRemoved shoppingCartId productItem now)

/-- `confirmShoppingCart`: rejects when not `Opened` or when `items` is empty,
otherwise emits `ShoppingCartConfirmed`. -/
def confirmShoppingCart (shoppingCartId : String) (state : ShoppingCart)
    (now : Int) : Except DomainError ShoppingCartEvent :=
  if state.status ≠ .Opened then
    .error (.illegalState "Cannot confirm a shopping cart that is not open")
  else if state.items.length = 0 then
    .error (.illegalState "Cannot confirm an empty shopping cart")
  else
    .ok (.confirmed shoppingCartId now)

/-- `cancelShoppingCart`: rejects when not `Opened`, otherwise emits
`ShoppingCartCancelled`. -/
def cancelShoppingCart (shoppingCartId : String) (state : ShoppingCart)
    (now : Int) : Except DomainError ShoppingCartEvent :=
  if state.status ≠ .Opened then
    .error (.illegalState "Cannot cancel a shopping cart that is not open")
  else
    .ok (.cancelled shoppingCartId now)

/-- `mergeProductItems` from the decider module: `findIndex` on productId; when found,
copy the array and bump that entry's quantity (all other fields, unit price included,
kept from the existing entry); when absent, append the new item.  Embedded as
first-match recursion. -/
def mergeProductItems (items : List PricedProductItem) (productItem : PricedProductItem) :
    List PricedProductItem :=
  match items with
  | [] => [productItem]
  | item :: rest =>
    if item.productId = productItem.productId then
      { item with quantity := item.quantity + productItem.quantity } :: rest
    else
      item :: mergeProductItems rest productItem

/-- `removeProductItems` from the decider module: `findIndex` on productId; when
absent, return `items` unchanged; otherwise subtract the requested quantity; when the
new quantity is ≤ 0 drop exactly the found entry (`filter` on the index), else copy
the array with the updated quantity. -/
def removeProductItems (items : List PricedProductItem) (productItem : ProductItem) :
    List PricedProductItem :=
  match items with
  | [] => []
  | item :: rest =>
    if item.productId = productItem.productId then
      let newQuantity := item.quantity - productItem.quantity
      if newQuantity ≤ 0 then rest
      else { item with quantity := newQuantity } :: rest
    else
      item :: removeProductItems rest productItem

/-- `evolve` from the decider module: total over every event; `ShoppingCartOpened`
rebuilds the state from scratch (fresh object, no confirmedAt/cancelledAt), item events
update `items` through the helpers, `Confirmed`/`Cancelled` update status and
timestamp, and the `default` branch returns the state unchanged. -/
def evolve (state : ShoppingCart) (event : ShoppingCartEvent) : ShoppingCart :=
  match event with
  | .opened shoppingCartId customerId openedAt =>
    { id := shoppingCartId
      customerId := customerId
      status := .Opened
      items := []
      openedAt := openedAt }
  | .productItemAdded _ productItem _ =>
    { state with items := mergeProductItems state.items productItem }
  | .productItemRemoved _ productItem _ =>
    { state with items := removeProductItems state.items productItem }
  | .confirmed _ confirmedAt =>
    { state with status := .Confirmed, confirmedAt := some confirmedAt }
  | .cancelled _ cancelledAt =>
    { state with status := .Cancelled, cancelledAt := some cancelledAt }
  | .unknownEvent _ => state

/-- `decide` from the decider module: dispatch on the command tag to the per-command
handler.  The command type is a closed union, so the source's `default` (unknown
command tag) branch has no counterpart. -/
def decide (command : ShoppingCartCommand) (state : ShoppingCart) (now : Int) :
    Except DomainError ShoppingCartEvent :=
  match command with
  | .openCart shoppingCartId customerId => openShoppingCart shoppingCartId customerId state now
  | .addProductItemCmd shoppingCartId productItem =>
    addProductItem shoppingCartId productItem state now
  | .removeProductItemCmd shoppingCartId productItem =>
    removeProductItem shoppingCartId productItem state now
  | .confirmCart shoppingCartId => confirmShoppingCart shoppingCartId state now
  | .cancelCart shoppingCartId => cancelShoppingCart shoppingCartId state now

/-- `ShoppingCartSummary` from `types/index.ts`: the single-stream projection
document, extending the cart shape with `totalAmount` and `totalItemsCount`. -/
structure ShoppingCartSummary where
  id : String
  customerId : String
  status : ShoppingCartStatus
  items : List PricedProductItem
  totalAmount : ℚ
  totalItemsCount : Int
  openedAt : Int
  confirmedAt : Option Int := none
  cancelledAt : Option Int := none
deriving DecidableEq, Repr

/-- Result of `calculateTotals` in the summary projection module. -/
structure CartTotals where
  totalAmount : ℚ
  totalItemsCount : Int
deriving DecidableEq, Repr

/-- `calculateTotals` from the summary projection module: a `reduce` over the items
accumulating `totalAmount + unitPrice * quantity` and `totalItemsCount + quantity`
from `{0, 0}`. -/
def calculateTotals (items : List PricedProductItem) : CartTotals :=
  items.foldl
    (fun totals item =>
      { totalAmount := totals.totalAmount + item.unitPrice * (item.quantity : ℚ)
        totalItemsCount := totals.totalItemsCount + item.quantity })
    { totalAmount := 0, totalItemsCount := 0 }

/-- `evolveShoppingCartSummary` from the summary projection module.  The module
duplicates `mergeProductItems`/`removeProductItems` verbatim from the decider, so the
embedding reuses the decider's definitions.  `Opened` rebuilds the document with zero
totals; item events recompute both totals with `calculateTotals`; `Confirmed` /
`Cancelled` update status and timestamp; every non-`Opened` case on a `null` document
returns `null`; the `default` branch returns the document unchanged. -/
def evolveShoppingCartSummary (document : Option ShoppingCartSummary)
    (event : ShoppingCartEvent) : Option ShoppingCartSummary :=
  match event with
  | .opened shoppingCartId customerId openedAt =>
    some
      { id := shoppingCartId
        customerId := customerId
        status := .Opened
        items := []
        totalAmount := 0
        totalItemsCount := 0
        openedAt := openedAt }
  | .productItemAdded _ productItem _ =>
    match document with
    | none => none
    | some doc =>
      let updatedItems := mergeProductItems doc.items productItem
      let totals := calculateTotals updatedItems
      some
        { doc with
            items := updatedItems
            totalAmount := totals.totalAmount
            totalItemsCount := totals.totalItemsCount }
  | .productItemRemoved _ productItem _ =>
    match document with
    | none => none
    | some doc =>
      let updatedItems := removeProductItems doc.items productItem
      let totals := calculateTotals updatedItems
      some
        { doc with
            items := updatedItems
            totalAmount := totals.totalAmount
            totalItemsCount := totals.totalItemsCount }
  | .confirmed _ confirmedAt =>
    match document with
    | none => none
    | some doc => some { doc with status := .Confirmed, confirmedAt := some confirmedAt }
  | .cancelled _ cancelledAt =>
    match document with
    | none => none
    | some doc => some { doc with status := .Cancelled, cancelledAt := some cancelledAt }
  | .unknownEvent _ => document

/-- One entry of `CustomerShoppingSummary.carts` (the per-cart rollup line). The
source keeps `status` as a plain string there. -/
structure CustomerCartEntry where
  id : String
  status : String
  totalAmount : ℚ
  openedAt : Int
deriving DecidableEq, Repr

/-- `CustomerShoppingSummary` from `projections/customerShoppingSummary.ts`. -/
structure CustomerShoppingSummary where
  customerId : String
  totalCarts : Int
  activeCartsCount : Int
  confirmedCartsCount : Int
  cancelledCartsCount : Int
  totalSpent : ℚ
  lastActivityAt : Int
  carts : List CustomerCartEntry
deriving DecidableEq, Repr

/-- The `findIndex`-then-copy-and-update pattern on `document.carts`, shared by the
`Added`/`Confirmed`/`Cancelled` cases of `evolveCustomerShoppingSummary`: returns
`none` when no entry has the given id (the source's `cartIndex < 0`), else the found
entry together with the list where the first matching entry is replaced by `f` of it. -/
def updateCartEntry (carts : List CustomerCartEntry) (cartId : String)
    (f : CustomerCartEntry → CustomerCartEntry) :
    Option (CustomerCartEntry × List CustomerCartEntry) :=
  match carts with
  | [] => none
  | cart :: rest =>
    if cart.id = cartId then
      some (cart, f cart :: rest)
    else
      match updateCartEntry rest cartId f with
      | none => none
      | some (found, updated) => some (found, cart :: updated)

/-- `evolveCustomerShoppingSummary` from `projections/customerShoppingSummary.ts`.
`Opened` creates the document when `null` and appends a fresh cart entry;
`Added` bumps the matching cart's totalAmount by `unitPrice * quantity` (document
unchanged when the cart id is untracked); `Removed` only refreshes `lastActivityAt`
(no cart-id check at all); `Confirmed`/`Cancelled` move the matching cart across the
counters (unchanged when untracked); the `default` branch returns the document. -/
def evolveCustomerShoppingSummary (document : Option CustomerShoppingSummary)
    (event : ShoppingCartEvent) : Option CustomerShoppingSummary :=
  match event with
  | .opened shoppingCartId customerId openedAt =>
    let existing : CustomerShoppingSummary :=
      match document with
      | some doc => doc
      | none =>
        { customerId := customerId
          totalCarts := 0
          activeCartsCount := 0
          confirmedCartsCount := 0
          cancelledCartsCount := 0
          totalSpent := 0
          lastActivityAt := openedAt
          carts := [] }
    some
      { existing with
          totalCarts := existing.totalCarts + 1
          activeCartsCount := existing.activeCartsCount + 1
          lastActivityAt := openedAt
          carts := existing.carts ++
            [{ id := shoppingCartId, status := "Opened", totalAmount := 0,
               openedAt := openedAt }] }
  | .productItemAdded shoppingCartId productItem addedAt =>
    match document with
    | none => none
    | some doc =>
      match updateCartEntry doc.carts shoppingCartId
          (fun cart =>
            { cart with
                totalAmount :=
                  cart.totalAmount + productItem.unitPrice * (productItem.quantity : ℚ) }) with
      | none => some doc
      | some (_, updatedCarts) =>
        some { doc with carts := updatedCarts, lastActivityAt := addedAt }
  | .productItemRemoved _ _ removedAt =>
    match document with
    | none => none
    | some doc => some { doc with lastActivityAt := removedAt }
  | .confirmed shoppingCartId confirmedAt =>
    match document with
    | none => none
    | some doc =>
      match updateCartEntry doc.carts shoppingCartId
          (fun cart => { cart with status := "Confirmed" }) with
      | none => some doc
      | some (cart, updatedCarts) =>
        some
          { doc with
              activeCartsCount := doc.activeCartsCount - 1
              confirmedCartsCount := doc.confirmedCartsCount + 1
              totalSpent := doc.totalSpent + cart.totalAmount
              carts := updatedCarts
              lastActivityAt := confirmedAt }
  | .cancelled shoppingCartId cancelledAt =>
    match document with
    | none => none
    | some doc =>
      match updateCartEntry doc.carts shoppingCartId
          (fun cart => { cart with status := "Cancelled" }) with
      | none => some doc
      | some (_, updatedCarts) =>
        some
          { doc with
              activeCartsCount := doc.activeCartsCount - 1
              cancelledCartsCount := doc.cancelledCartsCount + 1
              carts := updatedCarts
              lastActivityAt := cancelledAt }
  | .unknownEvent _ => document

/-- The wrapped in-memory event store's stream table: stream id to its ordered
events.  The stream version is the number of events (positions start at 1). -/
structure InMemoryStore where
  streams : List (String × List ShoppingCartEvent)
deriving DecidableEq, Repr

/-- `readStream` on the in-memory store: the events of a stream, empty when the
stream does not exist. -/
def readStreamEvents (store : InMemoryStore) (streamId : String) :
    List ShoppingCartEvent :=
  match store.streams.lookup streamId with
  | some events => events
  | none => []

/-- The stream's current version in the in-memory store. -/
def streamVersion (store : InMemoryStore) (streamId : String) : Nat :=
  (readStreamEvents store streamId).length

/-- Failure of the in-memory append: expected version mismatch. -/
inductive AppendError where
  | concurrencyConflict (expected actual : Nat)
deriving DecidableEq, Repr

/-- Replace (or insert) a stream's event list in the store table. -/
def setStream (store : InMemoryStore) (streamId : String)
    (events : List ShoppingCartEvent) : InMemoryStore :=
  { streams :=
      if (store.streams.lookup streamId).isSome then
        store.streams.map (fun entry =>
          if entry.1 = streamId then (entry.1, events) else entry)
      else
        store.streams ++ [(streamId, events)] }

/-- Modelled from the spec: the wrapped `@event-driven-io/emmett` in-memory store's
`appendToStream` (a library dependency, not part of this repository's sources),
following §4.2's contract — when an expected version is supplied and differs from the
stream's current version the append fails with a concurrency conflict and changes
nothing; otherwise the batch is appended and the new version (old version plus batch
length) is returned. -/
def appendInMemory (store : InMemoryStore) (streamId : String)
    (events : List ShoppingCartEvent) (expectedVersion : Option Nat) :
    Except AppendError (InMemoryStore × Nat) :=
  let current := readStreamEvents store streamId
  match expectedVersion with
  | some v =>
    if v ≠ current.length then
      .error (.concurrencyConflict v current.length)
    else
      .ok (setStream store streamId (current ++ events), current.length + events.length)
  | none =>
    .ok (setStream store streamId (current ++ events), current.length + events.length)

/-- The durable representation written per stream by the decorator:
`{ streamId, events, currentStreamVersion }` in `<streamId>.json`. -/
structure StreamFile where
  streamId : String
  events : List ShoppingCartEvent
  currentStreamVersion : Nat
deriving DecidableEq, Repr

/-- The data directory: file name (stream id) to stream file content. -/
structure FileSystem where
  files : List (String × StreamFile)
deriving DecidableEq, Repr

/-- Write (or overwrite) one stream file. -/
def writeStreamFile (fileSystem : FileSystem) (streamId : String) (content : StreamFile) :
    FileSystem :=
  { files :=
      if (fileSystem.files.lookup streamId).isSome then
        fileSystem.files.map (fun entry =>
          if entry.1 = streamId then (entry.1, content) else entry)
      else
        fileSystem.files ++ [(streamId, content)] }

/-- The overridden `appendToStream` of `getJsonFileEventStore`: call the wrapped
in-memory append (a failure there propagates before any file access); on success,
re-read the full stream and write it to `<streamId>.json` inside a
`try { ... } catch (error) { console.warn(...) }` — a failed durable write is logged
and swallowed, and the in-memory result is returned as success either way.
`fileWriteSucceeds` says whether the `fs.writeFile` call succeeded; when it is
`false` the file system is left as it was. -/
def jsonFileAppendToStream (store : InMemoryStore) (fileSystem : FileSystem)
    (streamId : String) (events : List ShoppingCartEvent)
    (expectedVersion : Option Nat) (fileWriteSucceeds : Bool) :
    InMemoryStore × FileSystem × Except AppendError Nat :=
  match appendInMemory store streamId events expectedVersion with
  | .error e => (store, fileSystem, .error e)
  | .ok (store', version) =>
    let fileSystem' :=
      if fileWriteSucceeds then
        writeStreamFile fileSystem streamId
          { streamId := streamId
            events := readStreamEvents store' streamId
            currentStreamVersion := version }
      else
        fileSystem
    (store', fileSystem', .ok version)

/-- One item of the cart summary built inside `getAllCarts`
(`{ productId, productName, quantity, price }`, where `price` copies the event's
`unitPrice`). -/
structure CartSummaryItem where
  productId : String
  productName : String
  quantity : Int
  price : ℚ
deriving DecidableEq, Repr

/-- The mutable `cartSummary` accumulator of `getAllCarts`, restricted to the fields
its event switch touches (`id`, `lastUpdated` and `totalEvents` come from the file
header, not from the fold).  `status` starts as the string `'Opened'`, the other
fields as `null`/empty. -/
structure GetAllCartsSummary where
  status : String := "Opened"
  items : List CartSummaryItem := []
  customerId : Option String := none
  openedAt : Option Int := none
  confirmedAt : Option Int := none
  cancelledAt : Option Int := none
deriving DecidableEq, Repr

/-- The `ProductItemAddedToShoppingCart` case of the `getAllCarts` switch: `find` the
first item with the event's productId; when found bump its quantity in place; else
push a new `{ productId, productName, quantity, price: unitPrice }` item. -/
def getAllCartsAddItem (items : List CartSummaryItem) (productItem : PricedProductItem) :
    List CartSummaryItem :=
  match items with
  | [] =>
    [{ productId := productItem.productId
       productName := productItem.productName
       quantity := productItem.quantity
       price := productItem.unitPrice }]
  | item :: rest =>
    if item.productId = productItem.productId then
      { item with quantity := item.quantity + productItem.quantity } :: rest
    else
      item :: getAllCartsAddItem rest productItem

/-- The `ProductItemRemovedFromShoppingCart` case of the `getAllCarts` switch: `find`
the first item with the event's productId; when absent do nothing; else subtract the
quantity in place and, when the result is ≤ 0, `filter` out every item with that
productId. -/
def getAllCartsRemoveItem (items : List CartSummaryItem) (productItem : ProductItem) :
    List CartSummaryItem :=
  match items with
  | [] => []
  | item :: rest =>
    if item.productId = productItem.productId then
      let newQuantity := item.quantity - productItem.quantity
      if newQuantity ≤ 0 then
        rest.filter (fun x => ¬(x.productId = productItem.productId))
      else
        { item with quantity := newQuantity } :: rest
    else
      item :: getAllCartsRemoveItem rest productItem

/-- The body of `getAllCarts`'s per-event `switch`: `Opened` sets customer, openedAt
and status but does NOT reset `items`; item events go through the helpers;
`Confirmed`/`Cancelled` set status and timestamp; an unrecognized tag matches no
case and leaves the accumulator untouched. -/
def getAllCartsStep (cartSummary : GetAllCartsSummary) (event : ShoppingCartEvent) :
    GetAllCartsSummary :=
  match event with
  | .opened _ customerId openedAt =>
    { cartSummary with
        customerId := some customerId
        openedAt := some openedAt
        status := "Opened" }
  | .productItemAdded _ productItem _ =>
    { cartSummary with items := getAllCartsAddItem cartSummary.items productItem }
  | .productItemRemoved _ productItem _ =>
    { cartSummary with items := getAllCartsRemoveItem cartSummary.items productItem }
  | .confirmed _ confirmedAt =>
    { cartSummary with status := "Confirmed", confirmedAt := some confirmedAt }
  | .cancelled _ cancelledAt =>
    { cartSummary with status := "Cancelled", cancelledAt := some cancelledAt }
  | .unknownEvent _ => cartSummary

/-- The whole per-file event loop of `getAllCarts` over one stream's events. -/
def getAllCartsFold (events : List ShoppingCartEvent) : GetAllCartsSummary :=
  events.foldl getAllCartsStep {}

/-! Derived notions used by the statements. -/

/-- States reachable from `initialState` by folding, via `evolve`, the events of
decide-accepted commands. -/
inductive Reachable : ShoppingCart → Prop where
  | init (now : Int) : Reachable (initialState now)
  | step {s : ShoppingCart} (cmd : ShoppingCartCommand) (now : Int)
      (e : ShoppingCartEvent) : Reachable s → decide cmd s now = .ok e →
      Reachable (evolve s e)

/-- A command whose add payload (if any) carries a positive quantity. -/
def addQuantityPositive : ShoppingCartCommand → Prop
  | .addProductItemCmd _ productItem => 0 < productItem.quantity
  | _ => True

/-- Reachability restricted to commands whose add payloads carry positive
quantities. -/
inductive PosReachable : ShoppingCart → Prop where
  | init (now : Int) : PosReachable (initialState now)
  | step {s : ShoppingCart} (cmd : ShoppingCartCommand) (now : Int)
      (e : ShoppingCartEvent) : PosReachable s → addQuantityPositive cmd →
      decide cmd s now = .ok e → PosReachable (evolve s e)

/-- Sum over the items of unitPrice × quantity. -/
def itemsAmount (items : List PricedProductItem) : ℚ :=
  (items.map fun item => item.unitPrice * (item.quantity : ℚ)).sum

/-- Sum over the items of quantity. -/
def itemsCount (items : List PricedProductItem) : Int :=
  (items.map fun item => item.quantity).sum

/-- The cart-summary totals invariant of the single-stream projection. -/
def summaryInvariant (doc : ShoppingCartSummary) : Prop :=
  doc.totalAmount = itemsAmount doc.items ∧ doc.totalItemsCount = itemsCount doc.items

/-- The comparable content of a decider item: productId, quantity, unitPrice. -/
def itemView (item : PricedProductItem) : String × Int × ℚ :=
  (item.productId, item.quantity, item.unitPrice)

/-- The comparable content of a `getAllCarts` item: productId, quantity, price. -/
def cartItemView (item : CartSummaryItem) : String × Int × ℚ :=
  (item.productId, item.quantity, item.price)

/-- The status strings used by `getAllCarts`. -/
def statusString : ShoppingCartStatus → String
  | .Opened => "Opened"
  | .Confirmed => "Confirmed"
  | .Cancelled => "Cancelled"

/-- Whether an event is a `ShoppingCartOpened` event. -/
def isOpenedEvent : ShoppingCartEvent → Bool
  | .opened _ _ _ => true
  | _ => false

/-- The product ids of an item list. -/
def itemKeys (items : List PricedProductItem) : List String :=
  items.map fun item => item.productId

/-! Helper lemmas about the item-list operations. -/

lemma removeProductItems_of_not_mem (items : List PricedProductItem)
    (productItem : ProductItem)
    (h : ∀ i ∈ items, i.productId ≠ productItem.productId) :
    removeProductItems items productItem = items := by
  induction items with
  | nil => rfl
  | cons item rest ih =>
    have hhead : item.productId ≠ productItem.productId := h item (by simp)
    simp only [removeProductItems, if_neg hhead]
    rw [ih fun i hi => h i (by simp [hi])]

lemma updateCartEntry_eq_none (carts : List CustomerCartEntry) (cartId : String)
    (f : CustomerCartEntry → CustomerCartEntry)
    (h : ∀ c ∈ carts, c.id ≠ cartId) :
    updateCartEntry carts cartId f = none := by
  induction carts with
  | nil => rfl
  | cons cart rest ih =>
    have hhead : cart.id ≠ cartId := h cart (by simp)
    simp only [updateCartEntry, if_neg hhead]
    rw [ih fun c hc => h c (by simp [hc])]

/-! Claim theorems. -/

/-- C1: the `appendToStream` override of `getJsonFileEventStore` reports success to
its caller even when the durable file write fails: whenever the wrapped in-memory
append succeeds, the decorated append with a failing `fs.writeFile` still returns the
in-memory success result, and the persisted files are left untouched (the write error
is logged and swallowed). -/
theorem C1_append_reports_success_despite_failed_write
    (store : InMemoryStore) (fileSystem : FileSystem) (streamId : String)
    (events : List ShoppingCartEvent) (expectedVersion : Option Nat)
    (store' : InMemoryStore) (version : Nat)
    (h : appendInMemory store streamId events expectedVersion = .ok (store', version)) :
    jsonFileAppendToStream store fileSystem streamId events expectedVersion false
      = (store', fileSystem, .ok version) := by
  simp [jsonFileAppendToStream, h]

/-- Witness for C1 at a concrete input: appending the first event of `cart-1` to an
empty store with a failing file write returns version 1 as success while the data
directory stays empty. -/
theorem C1_append_reports_success_despite_failed_write_witness :
    jsonFileAppendToStream ⟨[]⟩ ⟨[]⟩ "cart-1" [.opened "cart-1" "customer-9" 0] none false
      = (⟨[("cart-1", [.opened "cart-1" "customer-9" 0])]⟩, ⟨[]⟩, .ok 1) :=
  C1_append_reports_success_despite_failed_write ⟨[]⟩ ⟨[]⟩ "cart-1"
    [.opened "cart-1" "customer-9" 0] none ⟨[("cart-1", [.opened "cart-1" "customer-9" 0])]⟩ 1
    rfl

/-- C2 (counterexample): `decide` applied to the initial state does NOT reject
`AddProductItemToShoppingCart` with `IllegalState` — the initial state carries
`status: 'Opened'`, so the add handler's only check passes and an event is emitted. -/
theorem C2_counterexample :
    decide (.addProductItemCmd "cart-123" ⟨"product-789", "Test Product", 2, 25⟩)
        (initialState 0) 0
      = .ok (.productItemAdded "cart-123" ⟨"product-789", "Test Product", 2, 25⟩ 0) := by
  rfl

/-- C2 (amended): against the initial state, `RemoveProductItemFromShoppingCart` and
`ConfirmShoppingCart` fail with `IllegalState` (item absent, resp. empty cart), but
`AddProductItemToShoppingCart` and `CancelShoppingCart` are accepted, because the
initial state already has status `Opened`; only `OpenShoppingCart`'s own `id` check
distinguishes the absent cart. -/
theorem C2_initial_state_decisions (now t : Int) (cartId : String)
    (productItem : PricedProductItem) (removeItem : ProductItem) :
    decide (.removeProductItemCmd cartId removeItem) (initialState now) t
        = .error (.illegalState "Product item not found in shopping cart")
    ∧ decide (.confirmCart cartId) (initialState now) t
        = .error (.illegalState "Cannot confirm an empty shopping cart")
    ∧ decide (.addProductItemCmd cartId productItem) (initialState now) t
        = .ok (.productItemAdded cartId productItem t)
    ∧ decide (.cancelCart cartId) (initialState now) t = .ok (.cancelled cartId t) := by
  refine ⟨rfl, rfl, rfl, rfl⟩

/-- C4 (counterexample): a `ProductItemRemovedFromShoppingCart` event whose cart id is
not tracked by the customer summary does NOT leave the document unchanged — the code
updates `lastActivityAt` unconditionally in that case. -/
theorem C4_counterexample :
    (∀ c ∈ ([] : List CustomerCartEntry), c.id ≠ "cart-1")
    ∧ evolveCustomerShoppingSummary
        (some ⟨"customer-9", 0, 0, 0, 0, 0, 0, []⟩)
        (.productItemRemoved "cart-1" ⟨"product-789", "Test Product", 1⟩ 7)
      = some ⟨"customer-9", 0, 0, 0, 0, 0, 7, []⟩
    ∧ evolveCustomerShoppingSummary
        (some ⟨"customer-9", 0, 0, 0, 0, 0, 0, []⟩)
        (.productItemRemoved "cart-1" ⟨"product-789", "Test Product", 1⟩ 7)
      ≠ some ⟨"customer-9", 0, 0, 0, 0, 0, 0, []⟩ := by
  refine ⟨by simp, rfl, by decide⟩

/-- C4 (amended): for a non-null customer summary and an event whose cart id is not
tracked in `document.carts`, `evolveCustomerShoppingSummary` returns the document
completely unchanged for `ProductItemAddedToShoppingCart`, `ShoppingCartConfirmed`
and `ShoppingCartCancelled`; for `ProductItemRemovedFromShoppingCart` (which never
checks the cart id) it returns the document with only `lastActivityAt` replaced by
the event's `removedAt`, every other field unchanged. -/
theorem C4_untracked_cart_events (doc : CustomerShoppingSummary) (cartId : String)
    (h : ∀ c ∈ doc.carts, c.id ≠ cartId) :
    (∀ productItem addedAt,
      evolveCustomerShoppingSummary (some doc)
          (.productItemAdded cartId productItem addedAt) = some doc)
    ∧ (∀ confirmedAt,
      evolveCustomerShoppingSummary (some doc) (.confirmed cartId confirmedAt) = some doc)
    ∧ (∀ cancelledAt,
      evolveCustomerShoppingSummary (some doc) (.cancelled cartId cancelledAt) = some doc)
    ∧ (∀ productItem removedAt,
      evolveCustomerShoppingSummary (some doc)
          (.productItemRemoved cartId productItem removedAt)
        = some { doc with lastActivityAt := removedAt }) := by
  refine ⟨fun productItem addedAt => ?_, fun confirmedAt => ?_, fun cancelledAt => ?_,
    fun productItem removedAt => ?_⟩ <;>
    simp [evolveCustomerShoppingSummary, updateCartEntry_eq_none _ _ _ h]

/-- Witness for C4 at a concrete input: a summary tracking only `cart-2` ignores
add/confirm/cancel events for `cart-1` and gets only its `lastActivityAt` refreshed
by a remove event for `cart-1`. -/
theorem C4_untracked_cart_events_witness :
    (evolveCustomerShoppingSummary
        (some ⟨"customer-9", 1, 1, 0, 0, 0, 3, [⟨"cart-2", "Opened", 0, 3⟩]⟩)
        (.productItemAdded "cart-1" ⟨"product-789", "Test Product", 1, 5⟩ 9)
      = some ⟨"customer-9", 1, 1, 0, 0, 0, 3, [⟨"cart-2", "Opened", 0, 3⟩]⟩)
    ∧ (evolveCustomerShoppingSummary
        (some ⟨"customer-9", 1, 1, 0, 0, 0, 3, [⟨"cart-2", "Opened", 0, 3⟩]⟩)
        (.confirmed "cart-1" 9)
      = some ⟨"customer-9", 1, 1, 0, 0, 0, 3, [⟨"cart-2", "Opened", 0, 3⟩]⟩)
    ∧ (evolveCustomerShoppingSummary
        (some ⟨"customer-9", 1, 1, 0, 0, 0, 3, [⟨"cart-2", "Opened", 0, 3⟩]⟩)
        (.cancelled "cart-1" 9)
      = some ⟨"customer-9", 1, 1, 0, 0, 0, 3, [⟨"cart-2", "Opened", 0, 3⟩]⟩)
    ∧ (evolveCustomerShoppingSummary
        (some ⟨"customer-9", 1, 1, 0, 0, 0, 3, [⟨"cart-2", "Opened", 0, 3⟩]⟩)
        (.productItemRemoved "cart-1" ⟨"product-789", "Test Product", 1⟩ 9)
      = some ⟨"customer-9", 1, 1, 0, 0, 0, 9, [⟨"cart-2", "Opened", 0, 3⟩]⟩) := by
  have h := C4_untracked_cart_events ⟨"customer-9", 1, 1, 0, 0, 0, 3,
    [⟨"cart-2", "Opened", 0, 3⟩]⟩ "cart-1" (by decide)
  exact ⟨h.1 _ 9, h.2.1 9, h.2.2.1 9, h.2.2.2 _ 9⟩

/-- C8: `evolve` is total and never fails; an event with an unrecognized type tag
returns the input state unchanged (the `default` branch), and folding a
`ProductItemRemovedFromShoppingCart` event whose product is not among the items also
leaves the state unchanged. -/
theorem C8_evolve_total_and_frame :
    (∀ (state : ShoppingCart) (tag : String), evolve state (.unknownEvent tag) = state)
    ∧ (∀ (state : ShoppingCart) (cartId : String) (productItem : ProductItem) (t : Int),
        (∀ i ∈ state.items, i.productId ≠ productItem.productId) →
        evolve state (.productItemRemoved cartId productItem t) = state) := by
  refine ⟨fun state tag => rfl, fun state cartId productItem t h => ?_⟩
  simp [evolve, removeProductItems_of_not_mem state.items productItem h]

/-- Witness for C8 at a concrete input: an unknown-tag event and a remove event for an
absent product both leave the initial state unchanged. -/
theorem C8_evolve_total_and_frame_witness :
    evolve (initialState 0) (.unknownEvent "SomethingElse") = initialState 0
    ∧ evolve (initialState 0)
        (.productItemRemoved "cart-1" ⟨"product-789", "Test Product", 1⟩ 5)
      = initialState 0 :=
  ⟨C8_evolve_total_and_frame.1 (initialState 0) "SomethingElse",
   C8_evolve_total_and_frame.2 (initialState 0) "cart-1" ⟨"product-789", "Test Product", 1⟩ 5
     (by simp [initialState])⟩

/-- C5 (counterexample): a state with status `Confirmed` — reachable by accepted
commands, since `Add` then `Confirm` are accepted from the initial state without any
`Open` — still accepts `OpenShoppingCart`: its `id` is empty, so the open handler's
`state.id !== ''` check passes and an event is produced from a terminal state. -/
theorem C5_counterexample :
    (evolve (evolve (initialState 0)
        (.productItemAdded "cart-1" ⟨"product-789", "Test Product", 1, 5⟩ 1))
        (.confirmed "cart-1" 2)).status = .Confirmed
    ∧ Reachable (evolve (evolve (initialState 0)
        (.productItemAdded "cart-1" ⟨"product-789", "Test Product", 1, 5⟩ 1))
        (.confirmed "cart-1" 2))
    ∧ decide (.openCart "cart-9" "customer-1")
        (evolve (evolve (initialState 0)
          (.productItemAdded "cart-1" ⟨"product-789", "Test Product", 1, 5⟩ 1))
          (.confirmed "cart-1" 2)) 3
      = .ok (.opened "cart-9" "customer-1" 3) :=
  ⟨rfl,
   Reachable.step (.confirmCart "cart-1") 2 (.confirmed "cart-1" 2)
     (Reachable.step (.addProductItemCmd "cart-1" ⟨"product-789", "Test Product", 1, 5⟩) 1
       (.productItemAdded "cart-1" ⟨"product-789", "Test Product", 1, 5⟩ 1)
       (Reachable.init 0) rfl) rfl,
   rfl⟩

/-- C5 (amended): in a state with status `Confirmed` or `Cancelled`, `decide` fails
with `IllegalState` for `AddProductItemToShoppingCart`,
`RemoveProductItemFromShoppingCart`, `ConfirmShoppingCart` and `CancelShoppingCart`
unconditionally, and for `OpenShoppingCart` whenever the state's `id` is non-empty
(which holds for every cart that was actually opened); the open handler checks only
`id`, not the status. -/
theorem C5_terminal_state_rejections (s : ShoppingCart)
    (h : s.status = .Confirmed ∨ s.status = .Cancelled) :
    (∀ cartId productItem t, decide (.addProductItemCmd cartId productItem) s t
      = .error (.illegalState "Cannot add product to a closed shopping cart"))
    ∧ (∀ cartId productItem t, decide (.removeProductItemCmd cartId productItem) s t
      = .error (.illegalState "Cannot remove product from a closed shopping cart"))
    ∧ (∀ cartId t, decide (.confirmCart cartId) s t
      = .error (.illegalState "Cannot confirm a shopping cart that is not open"))
    ∧ (∀ cartId t, decide (.cancelCart cartId) s t
      = .error (.illegalState "Cannot cancel a shopping cart that is not open"))
    ∧ (∀ cartId customerId t, s.id ≠ "" → decide (.openCart cartId customerId) s t
      = .error (.illegalState "Shopping cart already exists")) := by
  have hs : s.status ≠ .Opened := by rcases h with h | h <;> simp [h]
  refine ⟨fun cartId productItem t => ?_, fun cartId productItem t => ?_,
    fun cartId t => ?_, fun cartId t => ?_, fun cartId customerId t hid => ?_⟩
  · simp [decide, addProductItem, hs]
  · simp [decide, removeProductItem, hs]
  · simp [decide, confirmShoppingCart, hs]
  · simp [decide, cancelShoppingCart, hs]
  · simp [decide, openShoppingCart, hid]

/-- Witness for C5 at a concrete input: a confirmed cart with non-empty id rejects
all five commands. -/
theorem C5_terminal_state_rejections_witness :
    decide (.addProductItemCmd "cart-1" ⟨"product-789", "Test Product", 1, 5⟩)
        ⟨"cart-1", "customer-9", .Confirmed, [⟨"product-789", "Test Product", 1, 5⟩], 0,
          some 2, none⟩ 3
      = .error (.illegalState "Cannot add product to a closed shopping cart")
    ∧ decide (.openCart "cart-1" "customer-9")
        ⟨"cart-1", "customer-9", .Confirmed, [⟨"product-789", "Test Product", 1, 5⟩], 0,
          some 2, none⟩ 3
      = .error (.illegalState "Shopping cart already exists") :=
  ⟨(C5_terminal_state_rejections _ (.inl rfl)).1 "cart-1" _ 3,
   (C5_terminal_state_rejections _ (.inl rfl)).2.2.2.2 "cart-1" "customer-9" 3 (by decide)⟩

/-- C3 (counterexample): `decide` accepts an `AddProductItemToShoppingCart` command
whose quantity is 0 (the add handler checks only the status), so a state with a
zero-quantity line item is reachable, via accepted commands, in status `Opened`. -/
theorem C3_counterexample :
    Reachable (evolve (evolve (initialState 0) (.opened "cart-1" "customer-9" 1))
      (.productItemAdded "cart-1" ⟨"product-789", "Test Product", 0, 5⟩ 2))
    ∧ (evolve (evolve (initialState 0) (.opened "cart-1" "customer-9" 1))
        (.productItemAdded "cart-1" ⟨"product-789", "Test Product", 0, 5⟩ 2)).status
      = .Opened
    ∧ ¬ (∀ i ∈ (evolve (evolve (initialState 0) (.opened "cart-1" "customer-9" 1))
        (.productItemAdded "cart-1" ⟨"product-789", "Test Product", 0, 5⟩ 2)).items,
        0 < i.quantity) :=
  ⟨Reachable.step (.addProductItemCmd "cart-1" ⟨"product-789", "Test Product", 0, 5⟩) 2
     (.productItemAdded "cart-1" ⟨"product-789", "Test Product", 0, 5⟩ 2)
     (Reachable.step (.openCart "cart-1" "customer-9") 1 (.opened "cart-1" "customer-9" 1)
       (Reachable.init 0) rfl) rfl,
   rfl,
   by decide⟩

lemma mergeProductItems_pos (items : List PricedProductItem)
    (productItem : PricedProductItem) (h : ∀ i ∈ items, 0 < i.quantity)
    (hpi : 0 < productItem.quantity) :
    ∀ i ∈ mergeProductItems items productItem, 0 < i.quantity := by
  induction items with
  | nil =>
    intro i hi
    simp only [mergeProductItems, List.mem_singleton] at hi
    subst hi; exact hpi
  | cons item rest ih =>
    intro i hi
    simp only [mergeProductItems] at hi
    by_cases hc : item.productId = productItem.productId
    · rw [if_pos hc] at hi
      rcases List.mem_cons.mp hi with h1 | h2
      · subst h1
        exact add_pos (h item (by simp)) hpi
      · exact h i (List.mem_cons_of_mem _ h2)
    · rw [if_neg hc] at hi
      rcases List.mem_cons.mp hi with h1 | h2
      · exact h i (by simp [h1])
      · exact ih (fun j hj => h j (List.mem_cons_of_mem _ hj)) i h2

lemma removeProductItems_pos (items : List PricedProductItem)
    (productItem : ProductItem) (h : ∀ i ∈ items, 0 < i.quantity) :
    ∀ i ∈ removeProductItems items productItem, 0 < i.quantity := by
  induction items with
  | nil => simp [removeProductItems]
  | cons item rest ih =>
    intro i hi
    simp only [removeProductItems] at hi
    by_cases hc : item.productId = productItem.productId
    · rw [if_pos hc] at hi
      by_cases hq : item.quantity - productItem.quantity ≤ 0
      · simp only [if_pos hq] at hi
        exact h i (List.mem_cons_of_mem _ hi)
      · simp only [if_neg hq] at hi
        rcases List.mem_cons.mp hi with h1 | h2
        · subst h1; simpa using not_le.mp hq
        · exact h i (List.mem_cons_of_mem _ h2)
    · rw [if_neg hc] at hi
      rcases List.mem_cons.mp hi with h1 | h2
      · exact h i (by simp [h1])
      · exact ih (fun j hj => h j (List.mem_cons_of_mem _ hj)) i h2

lemma posReachable_items_pos {s : ShoppingCart} (h : PosReachable s) :
    ∀ i ∈ s.items, 0 < i.quantity := by
  induction h with
  | init now => simp [initialState]
  | step cmd now e hs hq hd ih =>
    cases cmd with
    | openCart cartId customerId =>
      simp only [decide, openShoppingCart] at hd
      split at hd
      · exact absurd hd (by simp)
      · simp only [Except.ok.injEq] at hd
        subst hd
        simp [evolve]
    | addProductItemCmd cartId productItem =>
      simp only [decide, addProductItem] at hd
      split at hd
      · exact absurd hd (by simp)
      · simp only [Except.ok.injEq] at hd
        subst hd
        simp only [evolve]
        exact mergeProductItems_pos _ _ ih hq
    | removeProductItemCmd cartId productItem =>
      simp only [decide, removeProductItem] at hd
      split at hd
      · exact absurd hd (by simp)
      · split at hd
        · exact absurd hd (by simp)
        · split at hd
          · exact absurd hd (by simp)
          · simp only [Except.ok.injEq] at hd
            subst hd
            simp only [evolve]
            exact removeProductItems_pos _ _ ih
    | confirmCart cartId =>
      simp only [decide, confirmShoppingCart] at hd
      split at hd
      · exact absurd hd (by simp)
      · split at hd
        · exact absurd hd (by simp)
        · simp only [Except.ok.injEq] at hd
          subst hd
          simpa [evolve] using ih
    | cancelCart cartId =>
      simp only [decide, cancelShoppingCart] at hd
      split at hd
      · exact absurd hd (by simp)
      · simp only [Except.ok.injEq] at hd
        subst hd
        simpa [evolve] using ih

/-- C3 (amended): when every accepted `AddProductItemToShoppingCart` command carries a
positive quantity (which `decide` itself does not check), every state reachable from
the initial state by folding the events of accepted commands has only positive item
quantities; in particular this holds in every such Opened state. -/
theorem C3_reachable_quantities_positive (s : ShoppingCart) (h : PosReachable s)
    (_hst : s.status = .Opened) : ∀ i ∈ s.items, 0 < i.quantity :=
  posReachable_items_pos h

/-- Witness for C3 at a concrete input: the state reached by an accepted `Open` then
an accepted `Add` of quantity 2 is Opened, and its single line item — product-789 —
has positive quantity. -/
theorem C3_reachable_quantities_positive_witness :
    0 < (⟨"product-789", "Test Product", 2, 5⟩ : PricedProductItem).quantity :=
  C3_reachable_quantities_positive
    (evolve (evolve (initialState 0) (.opened "cart-1" "customer-9" 1))
      (.productItemAdded "cart-1" ⟨"product-789", "Test Product", 2, 5⟩ 2))
    (PosReachable.step (.addProductItemCmd "cart-1" ⟨"product-789", "Test Product", 2, 5⟩) 2
      (.productItemAdded "cart-1" ⟨"product-789", "Test Product", 2, 5⟩ 2)
      (PosReachable.step (.openCart "cart-1" "customer-9") 1 (.opened "cart-1" "customer-9" 1)
        (PosReachable.init 0) (by trivial) rfl)
      (by norm_num [addQuantityPositive]) rfl)
    rfl ⟨"product-789", "Test Product", 2, 5⟩ (by decide)

lemma find?_first_match (pre : List PricedProductItem) (item : PricedProductItem)
    (post : List PricedProductItem) (productItem : ProductItem)
    (hpre : ∀ i ∈ pre, i.productId ≠ productItem.productId)
    (hitem : item.productId = productItem.productId) :
    (pre ++ item :: post).find? (fun i => i.productId = productItem.productId)
      = some item := by
  induction pre with
  | nil =>
    rw [List.nil_append, List.find?_cons_of_pos _ (by simp [hitem])]
  | cons p rest ih =>
    have hp : p.productId ≠ productItem.productId := hpre p (by simp)
    rw [List.cons_append, List.find?_cons_of_neg _ (by simp [hp])]
    exact ih fun i hi => hpre i (List.mem_cons_of_mem _ hi)

lemma removeProductItems_cons_of_ne (p : PricedProductItem)
    (rest : List PricedProductItem) (productItem : ProductItem)
    (hp : p.productId ≠ productItem.productId) :
    removeProductItems (p :: rest) productItem
      = p :: removeProductItems rest productItem := by
  simp [removeProductItems, hp]

lemma mergeProductItems_cons_of_ne (p : PricedProductItem)
    (rest : List PricedProductItem) (productItem : PricedProductItem)
    (hp : p.productId ≠ productItem.productId) :
    mergeProductItems (p :: rest) productItem
      = p :: mergeProductItems rest productItem := by
  simp [mergeProductItems, hp]

lemma removeProductItems_append (pre : List PricedProductItem)
    (item : PricedProductItem) (post : List PricedProductItem)
    (productItem : ProductItem)
    (hpre : ∀ i ∈ pre, i.productId ≠ productItem.productId)
    (hitem : item.productId = productItem.productId) :
    removeProductItems (pre ++ item :: post) productItem
      = if item.quantity - productItem.quantity ≤ 0 then pre ++ post
        else pre ++ { item with quantity := item.quantity - productItem.quantity } :: post := by
  induction pre with
  | nil =>
    simp [removeProductItems, hitem]
  | cons p rest ih =>
    have hp : p.productId ≠ productItem.productId := hpre p (by simp)
    rw [List.cons_append, removeProductItems_cons_of_ne p _ productItem hp,
      ih fun i hi => hpre i (List.mem_cons_of_mem _ hi)]
    split <;> rfl

/-- C6: removal against an Opened state. When no item carries the requested
productId, `decide` fails with `IllegalState` ("not found"); when the first matching
item holds fewer than the requested quantity, `decide` fails with `IllegalState`
("cannot remove more"); otherwise `decide` emits `ProductItemRemovedFromShoppingCart`
and `evolve` subtracts the requested quantity from that line, dropping the line
entirely when the resulting quantity is ≤ 0. -/
theorem C6_remove_product_semantics (s : ShoppingCart) (cartId : String)
    (productItem : ProductItem) (t : Int) (hs : s.status = .Opened) :
    ((∀ i ∈ s.items, i.productId ≠ productItem.productId) →
      decide (.removeProductItemCmd cartId productItem) s t
        = .error (.illegalState "Product item not found in shopping cart"))
    ∧ (∀ pre item post, s.items = pre ++ item :: post →
        (∀ i ∈ pre, i.productId ≠ productItem.productId) →
        item.productId = productItem.productId →
        ((item.quantity < productItem.quantity →
          decide (.removeProductItemCmd cartId productItem) s t
            = .error (.illegalState "Cannot remove more items than available in cart"))
        ∧ (productItem.quantity ≤ item.quantity →
          decide (.removeProductItemCmd cartId productItem) s t
            = .ok (.productItemRemoved cartId productItem t)
          ∧ evolve s (.productItemRemoved cartId productItem t)
            = { s with items :=
                  if item.quantity - productItem.quantity ≤ 0 then pre ++ post
                  else pre ++ { item with
                    quantity := item.quantity - productItem.quantity } :: post }))) := by
  constructor
  · intro h
    have hfind : s.items.find? (fun i => i.productId = productItem.productId) = none :=
      List.find?_eq_none.mpr fun x hx => by simpa using h x hx
    simp [decide, removeProductItem, hs, hfind]
  · intro pre item post hitems hpre hitem
    have hfind : s.items.find? (fun i => i.productId = productItem.productId)
        = some item := by
      rw [hitems]; exact find?_first_match pre item post productItem hpre hitem
    constructor
    · intro hlt
      simp [decide, removeProductItem, hs, hfind, hlt]
    · intro hle
      refine ⟨by simp [decide, removeProductItem, hs, hfind, not_lt.mpr hle], ?_⟩
      simp only [evolve]
      rw [hitems, removeProductItems_append pre item post productItem hpre hitem]

/-- Witness for C6 at concrete inputs: in an Opened cart holding 2 of product-789,
removing an absent product fails, removing 3 fails, and removing 2 succeeds and
drops the line. -/
theorem C6_remove_product_semantics_witness :
    (decide (.removeProductItemCmd "cart-1" ⟨"product-000", "Other", 1⟩)
        ⟨"cart-1", "customer-9", .Opened, [⟨"product-789", "Test Product", 2, 25⟩], 0,
          none, none⟩ 5
      = .error (.illegalState "Product item not found in shopping cart"))
    ∧ (decide (.removeProductItemCmd "cart-1" ⟨"product-789", "Test Product", 3⟩)
        ⟨"cart-1", "customer-9", .Opened, [⟨"product-789", "Test Product", 2, 25⟩], 0,
          none, none⟩ 5
      = .error (.illegalState "Cannot remove more items than available in cart"))
    ∧ (decide (.removeProductItemCmd "cart-1" ⟨"product-789", "Test Product", 2⟩)
        ⟨"cart-1", "customer-9", .Opened, [⟨"product-789", "Test Product", 2, 25⟩], 0,
          none, none⟩ 5
      = .ok (.productItemRemoved "cart-1" ⟨"product-789", "Test Product", 2⟩ 5))
    ∧ evolve ⟨"cart-1", "customer-9", .Opened, [⟨"product-789", "Test Product", 2, 25⟩], 0,
          none, none⟩
        (.productItemRemoved "cart-1" ⟨"product-789", "Test Product", 2⟩ 5)
      = ⟨"cart-1", "customer-9", .Opened, [], 0, none, none⟩ := by
  refine ⟨(C6_remove_product_semantics
      ⟨"cart-1", "customer-9", .Opened, [⟨"product-789", "Test Product", 2, 25⟩], 0,
        none, none⟩ "cart-1" ⟨"product-000", "Other", 1⟩ 5 rfl).1 (by decide), ?_, ?_, ?_⟩
  · exact ((C6_remove_product_semantics
      ⟨"cart-1", "customer-9", .Opened, [⟨"product-789", "Test Product", 2, 25⟩], 0,
        none, none⟩ "cart-1" ⟨"product-789", "Test Product", 3⟩ 5 rfl).2
      [] ⟨"product-789", "Test Product", 2, 25⟩ [] rfl (by simp) rfl).1 (by decide)
  · exact (((C6_remove_product_semantics
      ⟨"cart-1", "customer-9", .Opened, [⟨"product-789", "Test Product", 2, 25⟩], 0,
        none, none⟩ "cart-1" ⟨"product-789", "Test Product", 2⟩ 5 rfl).2
      [] ⟨"product-789", "Test Product", 2, 25⟩ [] rfl (by simp) rfl).2 (by decide)).1
  · have h := (((C6_remove_product_semantics
      ⟨"cart-1", "customer-9", .Opened, [⟨"product-789", "Test Product", 2, 25⟩], 0,
        none, none⟩ "cart-1" ⟨"product-789", "Test Product", 2⟩ 5 rfl).2
      [] ⟨"product-789", "Test Product", 2, 25⟩ [] rfl (by simp) rfl).2 (by decide)).2
    simpa using h

lemma mergeProductItems_not_mem (items : List PricedProductItem)
    (productItem : PricedProductItem)
    (h : ∀ i ∈ items, i.productId ≠ productItem.productId) :
    mergeProductItems items productItem = items ++ [productItem] := by
  induction items with
  | nil => rfl
  | cons item rest ih =>
    have hhead : item.productId ≠ productItem.productId := h item (by simp)
    simp only [mergeProductItems, if_neg hhead, List.cons_append]
    rw [ih fun i hi => h i (List.mem_cons_of_mem _ hi)]

lemma mergeProductItems_append (pre : List PricedProductItem)
    (item : PricedProductItem) (post : List PricedProductItem)
    (productItem : PricedProductItem)
    (hpre : ∀ i ∈ pre, i.productId ≠ productItem.productId)
    (hitem : item.productId = productItem.productId) :
    mergeProductItems (pre ++ item :: post) productItem
      = pre ++ { item with quantity := item.quantity + productItem.quantity } :: post := by
  induction pre with
  | nil => simp [mergeProductItems, hitem]
  | cons p rest ih =>
    have hp : p.productId ≠ productItem.productId := hpre p (by simp)
    rw [List.cons_append, mergeProductItems_cons_of_ne p _ productItem hp,
      ih fun i hi => hpre i (List.mem_cons_of_mem _ hi), List.cons_append]

/-- C7: adding merges by product identifier — when the productId is already present,
the first matching line's quantity grows by the added quantity while its unit price
(and name) stay those fixed when the line was first added; when absent, a new line is
appended.  Scenario A: Open(cart-1, customer-9), Add(productA, qty 2, price 10),
Add(productA, qty 1, any price) folded through the summary projection yields a single
line (productA, qty 3, unit price 10) with total amount 30. -/
theorem C7_merge_semantics_and_scenarioA :
    (∀ (items : List PricedProductItem) (productItem : PricedProductItem),
      ((∀ i ∈ items, i.productId ≠ productItem.productId) →
        mergeProductItems items productItem = items ++ [productItem])
      ∧ (∀ pre item post, items = pre ++ item :: post →
          (∀ i ∈ pre, i.productId ≠ productItem.productId) →
          item.productId = productItem.productId →
          mergeProductItems items productItem
            = pre ++ { item with quantity := item.quantity + productItem.quantity } :: post))
    ∧ (∀ (p : ℚ) (n1 n2 : String) (t1 t2 t3 : Int),
        List.foldl evolveShoppingCartSummary none
          [.opened "cart-1" "customer-9" t1,
           .productItemAdded "cart-1" ⟨"productA", n1, 2, 10⟩ t2,
           .productItemAdded "cart-1" ⟨"productA", n2, 1, p⟩ t3]
        = some { id := "cart-1", customerId := "customer-9", status := .Opened,
                 items := [⟨"productA", n1, 3, 10⟩], totalAmount := 30,
                 totalItemsCount := 3, openedAt := t1 }) := by
  refine ⟨fun items productItem =>
    ⟨mergeProductItems_not_mem items productItem,
     fun pre item post hitems hpre hitem => by
       rw [hitems, mergeProductItems_append pre item post productItem hpre hitem]⟩,
    fun p n1 n2 t1 t2 t3 => ?_⟩
  norm_num [List.foldl, evolveShoppingCartSummary, mergeProductItems, calculateTotals]

/-- Witness for C7 at concrete inputs: merging into a one-line cart bumps the
quantity and keeps the first-add price. -/
theorem C7_merge_semantics_and_scenarioA_witness :
    mergeProductItems [⟨"productA", "A", 2, 10⟩] ⟨"productA", "A2", 1, 99⟩
      = [⟨"productA", "A", 3, 10⟩] := by
  have h := (C7_merge_semantics_and_scenarioA.1 [⟨"productA", "A", 2, 10⟩]
    ⟨"productA", "A2", 1, 99⟩).2 [] ⟨"productA", "A", 2, 10⟩ [] rfl (by simp) rfl
  simpa using h

lemma calculateTotals_foldl (items : List PricedProductItem) (t : CartTotals) :
    items.foldl
      (fun totals item =>
        { totalAmount := totals.totalAmount + item.unitPrice * (item.quantity : ℚ)
          totalItemsCount := totals.totalItemsCount + item.quantity }) t
      = ⟨t.totalAmount + itemsAmount items, t.totalItemsCount + itemsCount items⟩ := by
  induction items generalizing t with
  | nil => simp [itemsAmount, itemsCount]
  | cons item rest ih =>
    simp only [List.foldl_cons, ih]
    simp only [itemsAmount, itemsCount, List.map_cons, List.sum_cons, CartTotals.mk.injEq]
    constructor <;> ring

lemma calculateTotals_eq (items : List PricedProductItem) :
    calculateTotals items = ⟨itemsAmount items, itemsCount items⟩ := by
  simpa [calculateTotals] using calculateTotals_foldl items ⟨0, 0⟩

lemma evolveShoppingCartSummary_invariant (document : Option ShoppingCartSummary)
    (event : ShoppingCartEvent) (doc' : ShoppingCartSummary)
    (hdoc : ∀ d, document = some d → summaryInvariant d)
    (h : evolveShoppingCartSummary document event = some doc') : summaryInvariant doc' := by
  cases event with
  | opened cid cust t =>
    simp only [evolveShoppingCartSummary, Option.some.injEq] at h
    subst h
    simp [summaryInvariant, itemsAmount, itemsCount]
  | productItemAdded cid pi t =>
    cases document with
    | none => simp [evolveShoppingCartSummary] at h
    | some d =>
      simp only [evolveShoppingCartSummary, Option.some.injEq] at h
      subst h
      simp [summaryInvariant, calculateTotals_eq]
  | productItemRemoved cid pi t =>
    cases document with
    | none => simp [evolveShoppingCartSummary] at h
    | some d =>
      simp only [evolveShoppingCartSummary, Option.some.injEq] at h
      subst h
      simp [summaryInvariant, calculateTotals_eq]
  | confirmed cid t =>
    cases document with
    | none => simp [evolveShoppingCartSummary] at h
    | some d =>
      simp only [evolveShoppingCartSummary, Option.some.injEq] at h
      subst h
      simpa [summaryInvariant] using hdoc d rfl
  | cancelled cid t =>
    cases document with
    | none => simp [evolveShoppingCartSummary] at h
    | some d =>
      simp only [evolveShoppingCartSummary, Option.some.injEq] at h
      subst h
      simpa [summaryInvariant] using hdoc d rfl
  | unknownEvent tag =>
    exact hdoc doc' h

lemma foldl_summary_invariant (es : List ShoppingCartEvent)
    (start : Option ShoppingCartSummary)
    (hstart : ∀ d, start = some d → summaryInvariant d) :
    ∀ doc, es.foldl evolveShoppingCartSummary start = some doc → summaryInvariant doc := by
  induction es generalizing start with
  | nil => exact hstart
  | cons e rest ih =>
    intro doc h
    simp only [List.foldl_cons] at h
    exact ih (evolveShoppingCartSummary start e)
      (fun d hd => evolveShoppingCartSummary_invariant start e d hstart hd) doc h

/-- C9: every non-null document obtained by folding `evolveShoppingCartSummary` over
any event sequence starting from `null` has `totalAmount` equal to the sum over its
items of unitPrice × quantity and `totalItemsCount` equal to the sum of the
quantities, and a single fold step preserves this invariant. -/
theorem C9_summary_totals_invariant :
    (∀ (es : List ShoppingCartEvent) (doc : ShoppingCartSummary),
      es.foldl evolveShoppingCartSummary none = some doc →
      doc.totalAmount = itemsAmount doc.items ∧ doc.totalItemsCount = itemsCount doc.items)
    ∧ (∀ (doc : ShoppingCartSummary) (event : ShoppingCartEvent)
        (doc' : ShoppingCartSummary),
      doc.totalAmount = itemsAmount doc.items → doc.totalItemsCount = itemsCount doc.items →
      evolveShoppingCartSummary (some doc) event = some doc' →
      doc'.totalAmount = itemsAmount doc'.items
      ∧ doc'.totalItemsCount = itemsCount doc'.items) := by
  constructor
  · intro es doc h
    exact foldl_summary_invariant es none (by simp) doc h
  · intro doc event doc' h1 h2 h
    refine evolveShoppingCartSummary_invariant (some doc) event doc' ?_ h
    intro d hd
    injection hd with hd'
    subst hd'
    exact ⟨h1, h2⟩

/-- Witness for C9 at a concrete input: folding Open then Add(qty 2, price 25) yields
a document whose totals are 50 and 2, matching the item sums. -/
theorem C9_summary_totals_invariant_witness :
    (50 : ℚ) = itemsAmount [⟨"product-789", "Test Product", 2, 25⟩]
    ∧ (2 : Int) = itemsCount [⟨"product-789", "Test Product", 2, 25⟩] :=
  C9_summary_totals_invariant.1
    [.opened "cart-1" "customer-9" 0,
     .productItemAdded "cart-1" ⟨"product-789", "Test Product", 2, 25⟩ 1]
    { id := "cart-1", customerId := "customer-9", status := .Opened,
      items := [⟨"product-789", "Test Product", 2, 25⟩], totalAmount := 50,
      totalItemsCount := 2, openedAt := 0 }
    (by norm_num [List.foldl, evolveShoppingCartSummary, mergeProductItems, calculateTotals])

lemma keys_eq_of_view_eq (itemsC : List CartSummaryItem)
    (itemsS : List PricedProductItem)
    (h : itemsC.map cartItemView = itemsS.map itemView) :
    itemsC.map (fun i => i.productId) = itemKeys itemsS := by
  have h' := congrArg (List.map Prod.fst) h
  simpa [List.map_map, Function.comp, cartItemView, itemView, itemKeys] using h'

lemma itemKeys_merge_mem (items : List PricedProductItem)
    (productItem : PricedProductItem) (h : productItem.productId ∈ itemKeys items) :
    itemKeys (mergeProductItems items productItem) = itemKeys items := by
  induction items with
  | nil => simp [itemKeys] at h
  | cons item rest ih =>
    by_cases hc : item.productId = productItem.productId
    · simp [mergeProductItems, if_pos hc, itemKeys]
    · have hmem : productItem.productId ∈ itemKeys rest := by
        rcases List.mem_cons.mp h with h1 | h2
        · exact absurd h1.symm hc
        · exact h2
      simp only [mergeProductItems, if_neg hc, itemKeys, List.map_cons]
      rw [show (mergeProductItems rest productItem).map (fun i => i.productId)
          = itemKeys (mergeProductItems rest productItem) from rfl, ih hmem]
      rfl

lemma itemKeys_merge_not_mem (items : List PricedProductItem)
    (productItem : PricedProductItem) (h : productItem.productId ∉ itemKeys items) :
    itemKeys (mergeProductItems items productItem)
      = itemKeys items ++ [productItem.productId] := by
  induction items with
  | nil => simp [mergeProductItems, itemKeys]
  | cons item rest ih =>
    have hc : ¬ item.productId = productItem.productId := by
      intro hc
      exact h (by simp [itemKeys, hc])
    have hrest : productItem.productId ∉ itemKeys rest := by
      intro hmem
      exact h (by simp [itemKeys] at hmem ⊢; exact .inr hmem)
    simp only [mergeProductItems, if_neg hc, itemKeys, List.map_cons]
    rw [show (mergeProductItems rest productItem).map (fun i => i.productId)
        = itemKeys (mergeProductItems rest productItem) from rfl, ih hrest]
    rfl

lemma nodup_itemKeys_merge (items : List PricedProductItem)
    (productItem : PricedProductItem) (hnd : (itemKeys items).Nodup) :
    (itemKeys (mergeProductItems items productItem)).Nodup := by
  by_cases h : productItem.productId ∈ itemKeys items
  · rw [itemKeys_merge_mem items productItem h]; exact hnd
  · rw [itemKeys_merge_not_mem items productItem h]
    simp [List.nodup_append, hnd, h]

lemma itemKeys_remove_sublist (items : List PricedProductItem)
    (productItem : ProductItem) :
    List.Sublist (itemKeys (removeProductItems items productItem)) (itemKeys items) := by
  induction items with
  | nil => simp [removeProductItems, itemKeys]
  | cons item rest ih =>
    by_cases hc : item.productId = productItem.productId
    · by_cases hq : item.quantity - productItem.quantity ≤ 0
      · rw [show removeProductItems (item :: rest) productItem = rest by
          simp [removeProductItems, hc, hq]]
        exact List.sublist_cons_self _ _
      · rw [show removeProductItems (item :: rest) productItem
            = { item with quantity := item.quantity - productItem.quantity } :: rest by
          simp [removeProductItems, hc, hq]]
        exact List.Sublist.refl _
    · rw [removeProductItems_cons_of_ne item rest productItem hc]
      exact List.Sublist.cons₂ _ ih

lemma nodup_itemKeys_remove (items : List PricedProductItem)
    (productItem : ProductItem) (hnd : (itemKeys items).Nodup) :
    (itemKeys (removeProductItems items productItem)).Nodup :=
  List.Nodup.sublist (itemKeys_remove_sublist items productItem) hnd

lemma getAllCartsAddItem_view (itemsS : List PricedProductItem) :
    ∀ (itemsC : List CartSummaryItem),
    itemsC.map cartItemView = itemsS.map itemView →
    ∀ productItem : PricedProductItem,
    (getAllCartsAddItem itemsC productItem).map cartItemView
      = (mergeProductItems itemsS productItem).map itemView := by
  induction itemsS with
  | nil =>
    intro itemsC h productItem
    have hC : itemsC = [] := by simpa [List.map_eq_nil_iff] using h
    subst hC
    simp [getAllCartsAddItem, mergeProductItems, cartItemView, itemView]
  | cons s sRest ih =>
    intro itemsC h productItem
    cases itemsC with
    | nil => simp at h
    | cons c cRest =>
      simp only [List.map_cons, List.cons.injEq] at h
      obtain ⟨hview, hrest⟩ := h
      have h1 : c.productId = s.productId := congrArg Prod.fst hview
      have h2 : c.quantity = s.quantity := congrArg (fun x => x.2.1) hview
      have h3 : c.price = s.unitPrice := congrArg (fun x => x.2.2) hview
      by_cases hc : c.productId = productItem.productId
      · have hcs : s.productId = productItem.productId := by rw [← h1]; exact hc
        simp only [getAllCartsAddItem, if_pos hc, mergeProductItems, if_pos hcs,
          List.map_cons]
        exact congrArg₂ _ (by simp [cartItemView, itemView, h1, h2, h3]) hrest
      · have hcs : ¬ s.productId = productItem.productId := by rw [← h1]; exact hc
        simp only [getAllCartsAddItem, if_neg hc, mergeProductItems, if_neg hcs,
          List.map_cons]
        exact congrArg₂ _ hview (ih cRest hrest productItem)

lemma getAllCartsRemoveItem_view (itemsS : List PricedProductItem) :
    ∀ (itemsC : List CartSummaryItem),
    itemsC.map cartItemView = itemsS.map itemView →
    (itemKeys itemsS).Nodup →
    ∀ productItem : ProductItem,
    (getAllCartsRemoveItem itemsC productItem).map cartItemView
      = (removeProductItems itemsS productItem).map itemView := by
  induction itemsS with
  | nil =>
    intro itemsC h _ productItem
    have hC : itemsC = [] := by simpa [List.map_eq_nil_iff] using h
    subst hC
    simp [getAllCartsRemoveItem, removeProductItems]
  | cons s sRest ih =>
    intro itemsC h hnd productItem
    cases itemsC with
    | nil => simp at h
    | cons c cRest =>
      simp only [List.map_cons, List.cons.injEq] at h
      obtain ⟨hview, hrest⟩ := h
      have h1 : c.productId = s.productId := congrArg Prod.fst hview
      have h2 : c.quantity = s.quantity := congrArg (fun x => x.2.1) hview
      simp only [itemKeys, List.map_cons, List.nodup_cons] at hnd
      obtain ⟨hnotin, hndRest⟩ := hnd
      by_cases hc : c.productId = productItem.productId
      · have hcs : s.productId = productItem.productId := by rw [← h1]; exact hc
        by_cases hq : s.quantity - productItem.quantity ≤ 0
        · have hqc : c.quantity - productItem.quantity ≤ 0 := by rw [h2]; exact hq
          rw [show getAllCartsRemoveItem (c :: cRest) productItem
              = cRest.filter (fun x => ¬(x.productId = productItem.productId)) by
            simp [getAllCartsRemoveItem, hc, hqc]]
          rw [show removeProductItems (s :: sRest) productItem = sRest by
            simp [removeProductItems, hcs, hq]]
          have hnomatch : ∀ x ∈ cRest, ¬ (x.productId = productItem.productId) := by
            intro x hx hxid
            have hxmem : x.productId ∈ cRest.map (fun i => i.productId) :=
              List.mem_map_of_mem _ hx
            rw [keys_eq_of_view_eq cRest sRest hrest] at hxmem
            rw [hxid, ← hcs] at hxmem
            exact hnotin hxmem
          rw [List.filter_eq_self.mpr (fun a ha => by simpa using hnomatch a ha)]
          exact hrest
        · have hqc : ¬ c.quantity - productItem.quantity ≤ 0 := by rw [h2]; exact hq
          rw [show getAllCartsRemoveItem (c :: cRest) productItem
              = { c with quantity := c.quantity - productItem.quantity } :: cRest by
            simp [getAllCartsRemoveItem, hc, hqc]]
          rw [show removeProductItems (s :: sRest) productItem
              = { s with quantity := s.quantity - productItem.quantity } :: sRest by
            simp [removeProductItems, hcs, hq]]
          simp only [List.map_cons]
          refine congrArg₂ _ ?_ hrest
          have h3 : c.price = s.unitPrice := congrArg (fun x => x.2.2) hview
          simp [cartItemView, itemView, h1, h2, h3]
      · have hcs : ¬ s.productId = productItem.productId := by rw [← h1]; exact hc
        rw [show getAllCartsRemoveItem (c :: cRest) productItem
            = c :: getAllCartsRemoveItem cRest productItem by
          simp [getAllCartsRemoveItem, hc]]
        rw [removeProductItems_cons_of_ne s sRest productItem hcs]
        simp only [List.map_cons]
        exact congrArg₂ _ hview (ih cRest hrest hndRest productItem)

lemma foldl_open_phase (opens : List ShoppingCartEvent) :
    ∀ (s : ShoppingCart) (cs : GetAllCartsSummary),
    (∀ e ∈ opens, isOpenedEvent e = true) →
    s.items = [] → s.status = .Opened → cs.items = [] → cs.status = "Opened" →
    ((List.foldl getAllCartsStep cs opens).items = []
    ∧ (List.foldl getAllCartsStep cs opens).status = "Opened"
    ∧ (List.foldl evolve s opens).items = []
    ∧ (List.foldl evolve s opens).status = .Opened) := by
  induction opens with
  | nil =>
    intro s cs _ h1 h2 h3 h4
    exact ⟨h3, h4, h1, h2⟩
  | cons e rest ih =>
    intro s cs hop h1 h2 h3 h4
    have hope : isOpenedEvent e = true := hop e (by simp)
    cases e with
    | opened cid cust t =>
      simp only [List.foldl_cons]
      exact ih _ _ (fun e' he' => hop e' (List.mem_cons_of_mem _ he'))
        (by simp [evolve]) (by simp [evolve])
        (by simp [getAllCartsStep, h3]) (by simp [getAllCartsStep])
    | productItemAdded cid pi t => simp [isOpenedEvent] at hope
    | productItemRemoved cid pi t => simp [isOpenedEvent] at hope
    | confirmed cid t => simp [isOpenedEvent] at hope
    | cancelled cid t => simp [isOpenedEvent] at hope
    | unknownEvent tag => simp [isOpenedEvent] at hope

lemma foldl_rest_phase (rest : List ShoppingCartEvent) :
    ∀ (s : ShoppingCart) (cs : GetAllCartsSummary),
    (∀ e ∈ rest, isOpenedEvent e = false) →
    cs.items.map cartItemView = s.items.map itemView →
    cs.status = statusString s.status →
    (itemKeys s.items).Nodup →
    ((List.foldl getAllCartsStep cs rest).items.map cartItemView
      = (List.foldl evolve s rest).items.map itemView
    ∧ (List.foldl getAllCartsStep cs rest).status
      = statusString (List.foldl evolve s rest).status) := by
  induction rest with
  | nil =>
    intro s cs _ hitems hstatus _
    exact ⟨hitems, hstatus⟩
  | cons e rest ih =>
    intro s cs hop hitems hstatus hnd
    have hope : isOpenedEvent e = false := hop e (by simp)
    have hoprest : ∀ e' ∈ rest, isOpenedEvent e' = false :=
      fun e' he' => hop e' (List.mem_cons_of_mem _ he')
    simp only [List.foldl_cons]
    cases e with
    | opened cid cust t => simp [isOpenedEvent] at hope
    | productItemAdded cid pi t =>
      refine ih _ _ hoprest ?_ ?_ ?_
      · simpa [getAllCartsStep, evolve] using
          getAllCartsAddItem_view s.items cs.items hitems pi
      · simpa [getAllCartsStep, evolve] using hstatus
      · simpa [evolve] using nodup_itemKeys_merge s.items pi hnd
    | productItemRemoved cid pi t =>
      refine ih _ _ hoprest ?_ ?_ ?_
      · simpa [getAllCartsStep, evolve] using
          getAllCartsRemoveItem_view s.items cs.items hitems hnd pi
      · simpa [getAllCartsStep, evolve] using hstatus
      · simpa [evolve] using nodup_itemKeys_remove s.items pi hnd
    | confirmed cid t =>
      refine ih _ _ hoprest ?_ ?_ ?_
      · simpa [getAllCartsStep, evolve] using hitems
      · simp [getAllCartsStep, evolve, statusString]
      · simpa [evolve] using hnd
    | cancelled cid t =>
      refine ih _ _ hoprest ?_ ?_ ?_
      · simpa [getAllCartsStep, evolve] using hitems
      · simp [getAllCartsStep, evolve, statusString]
      · simpa [evolve] using hnd
    | unknownEvent tag =>
      refine ih _ _ hoprest ?_ ?_ ?_
      · simpa [getAllCartsStep, evolve] using hitems
      · simpa [getAllCartsStep, evolve] using hstatus
      · simpa [evolve] using hnd

/-- C10 (counterexample): on the event sequence [ItemAdded(product-789), Opened] the
per-file fold of `getAllCarts` and the decider's `evolve` fold disagree on the items:
`evolve` resets `items` to `[]` on `ShoppingCartOpened`, while the `getAllCarts`
switch keeps the already-accumulated items. -/
theorem C10_counterexample :
    ¬ ((getAllCartsFold
          [.productItemAdded "cart-1" ⟨"product-789", "Test Product", 1, 5⟩ 1,
           .opened "cart-1" "customer-9" 2]).items.map cartItemView
        = (List.foldl evolve (initialState 0)
          [.productItemAdded "cart-1" ⟨"product-789", "Test Product", 1, 5⟩ 1,
           .opened "cart-1" "customer-9" 2]).items.map itemView
      ∧ (getAllCartsFold
          [.productItemAdded "cart-1" ⟨"product-789", "Test Product", 1, 5⟩ 1,
           .opened "cart-1" "customer-9" 2]).status
        = statusString (List.foldl evolve (initialState 0)
          [.productItemAdded "cart-1" ⟨"product-789", "Test Product", 1, 5⟩ 1,
           .opened "cart-1" "customer-9" 2]).status) := by
  decide

/-- C10 (amended): for every event sequence in which all `ShoppingCartOpened` events
precede all other events (in particular every stream that starts with its Opened
event), the per-file fold of `getAllCarts` computes the same items — same productIds,
quantities and unit prices — and the same status as folding `evolve` from
`initialState`.  In general the two folds agree except that `evolve` clears the items
on a `ShoppingCartOpened` event arriving after item events while `getAllCarts` keeps
them. -/
theorem C10_getAllCarts_fold_refines_evolve (opens rest : List ShoppingCartEvent)
    (now : Int) (hopens : ∀ e ∈ opens, isOpenedEvent e = true)
    (hrest : ∀ e ∈ rest, isOpenedEvent e = false) :
    (getAllCartsFold (opens ++ rest)).items.map cartItemView
      = (List.foldl evolve (initialState now) (opens ++ rest)).items.map itemView
    ∧ (getAllCartsFold (opens ++ rest)).status
      = statusString (List.foldl evolve (initialState now) (opens ++ rest)).status := by
  unfold getAllCartsFold
  rw [List.foldl_append, List.foldl_append]
  obtain ⟨h1, h2, h3, h4⟩ := foldl_open_phase opens (initialState now) {} hopens
    rfl rfl rfl rfl
  refine foldl_rest_phase rest _ _ hrest ?_ ?_ ?_
  · rw [h1, h3]; rfl
  · rw [h2, h4]; rfl
  · rw [h3]; simp [itemKeys]

/-- Witness for C10 at a concrete input: for the stream Opened, ItemAdded(qty 2),
Confirmed, the two folds produce the same single-line item view and the same
Confirmed status. -/
theorem C10_getAllCarts_fold_refines_evolve_witness :
    (getAllCartsFold
        [.opened "cart-1" "customer-9" 0,
         .productItemAdded "cart-1" ⟨"product-789", "Test Product", 2, 25⟩ 1,
         .confirmed "cart-1" 2]).items.map cartItemView
      = (List.foldl evolve (initialState 0)
        [.opened "cart-1" "customer-9" 0,
         .productItemAdded "cart-1" ⟨"product-789", "Test Product", 2, 25⟩ 1,
         .confirmed "cart-1" 2]).items.map itemView
    ∧ (getAllCartsFold
        [.opened "cart-1" "customer-9" 0,
         .productItemAdded "cart-1" ⟨"product-789", "Test Product", 2, 25⟩ 1,
         .confirmed "cart-1" 2]).status
      = statusString (List.foldl evolve (initialState 0)
        [.opened "cart-1" "customer-9" 0,
         .productItemAdded "cart-1" ⟨"product-789", "Test Product", 2, 25⟩ 1,
         .confirmed "cart-1" 2]).status :=
  C10_getAllCarts_fold_refines_evolve [.opened "cart-1" "customer-9" 0]
    [.productItemAdded "cart-1" ⟨"product-789", "Test Product", 2, 25⟩ 1,
     .confirmed "cart-1" 2] 0 (by decide) (by decide)

end ESShopping
